import Mathlib

/-!
Shallow embedding of the ShopLens agent-orchestration core:
the circuit breaker (`app/core/circuit_breaker.py`), the tool registry
dispatcher (`app/functions/registry.py`), the two provider adapters
(`app/services/llm_service.py`) and the function-calling loop of
`ChatService.process_message` (`app/services/chat_service.py`).

Python wall-clock time (`time.time()`) is modelled as an explicit rational
parameter passed to each operation that reads the clock.  Python exceptions
are modelled with `Except` where the source can raise, and exception class
names are carried as strings.  JSON values are modelled by the inductive
`Jval`; the Python stdlib functions `json.dumps` / `json.loads`, which live
outside this repository, are taken as parameters (`jdumps` / `jloads`).
-/

namespace ShopLens

/-- Python exception, identified by its class name (e.g. "TypeError"). -/
abbrev PyExn := String

/-- JSON-like value (Python `Any` as carried through tool args/results). -/
inductive Jval where
  | str (s : String)
  | num (n : Int)
  | bool (b : Bool)
  | null
  | arr (l : List Jval)
  | obj (l : List (String × Jval))

/-- A Python `Dict[str, Any]` (tool arguments / tool results). -/
abbrev JObj := List (String × Jval)

/-! ## Circuit breaker (`app/core/circuit_breaker.py`) -/

/-- `CircuitState` enum of `circuit_breaker.py` (member names as in source). -/
inductive CircuitState where
  | CLOSED
  | OPEN
  | HALF_OPEN
deriving DecidableEq, Repr

/-- The mutable fields of `CircuitBreaker.__init__`, plus its configuration. -/
structure CircuitBreaker where
  name : String
  failure_threshold : Nat
  recovery_timeout : ℚ
  state_ : CircuitState
  failure_count : Nat
  last_failure_time : ℚ
deriving DecidableEq, Repr

/-- The `state` property: performs the lazy OPEN -> HALF_OPEN check against
the clock and returns the (possibly updated) state together with the
breaker after the mutation. -/
def CircuitBreaker.state (cb : CircuitBreaker) (now : ℚ) :
    CircuitState × CircuitBreaker :=
  if cb.state_ = CircuitState.OPEN ∧ now - cb.last_failure_time ≥ cb.recovery_timeout then
    (CircuitState.HALF_OPEN, { cb with state_ := CircuitState.HALF_OPEN })
  else
    (cb.state_, cb)

/-- `CircuitBreaker.allow_request`: obtains `state` (triggering the
OPEN -> HALF_OPEN check) and allows unless the state is OPEN. -/
def CircuitBreaker.allow_request (cb : CircuitBreaker) (now : ℚ) :
    Bool × CircuitBreaker :=
  let (current_state, cb') := cb.state now
  match current_state with
  | CircuitState.CLOSED => (true, cb')
  | CircuitState.HALF_OPEN => (true, cb')
  | CircuitState.OPEN => (false, cb')

/-- `CircuitBreaker.record_success`: unconditionally sets the state to
CLOSED and resets the failure count. -/
def CircuitBreaker.record_success (cb : CircuitBreaker) : CircuitBreaker :=
  { cb with state_ := CircuitState.CLOSED, failure_count := 0 }

/-- `CircuitBreaker.record_failure`: increments the failure count, stamps
the failure time; HALF_OPEN goes to OPEN immediately, CLOSED goes to OPEN
once the incremented count reaches the threshold. -/
def CircuitBreaker.record_failure (cb : CircuitBreaker) (now : ℚ) : CircuitBreaker :=
  let count' := cb.failure_count + 1
  let state' :=
    if cb.state_ = CircuitState.HALF_OPEN then CircuitState.OPEN
    else if count' ≥ cb.failure_threshold then CircuitState.OPEN
    else cb.state_
  { cb with failure_count := count', last_failure_time := now, state_ := state' }

/-- `CircuitBreaker.reset`: forces CLOSED with zeroed counters. -/
def CircuitBreaker.reset (cb : CircuitBreaker) : CircuitBreaker :=
  { cb with state_ := CircuitState.CLOSED, failure_count := 0, last_failure_time := 0 }

/-- The module-level singleton `gemini_breaker`. -/
def gemini_breaker : CircuitBreaker :=
  { name := "gemini", failure_threshold := 5, recovery_timeout := 30,
    state_ := CircuitState.CLOSED, failure_count := 0, last_failure_time := 0 }

/-- One externally invocable breaker operation (reset excluded, as in the
claim), tagged with the clock value at which it runs where relevant. -/
inductive BreakerOp where
  | state_read (now : ℚ)
  | allow_req (now : ℚ)
  | rec_success
  | rec_failure (now : ℚ)

/-- Apply a breaker operation, keeping only the resulting breaker. -/
def applyBreakerOp (cb : CircuitBreaker) : BreakerOp → CircuitBreaker
  | BreakerOp.state_read now => (cb.state now).2
  | BreakerOp.allow_req now => (cb.allow_request now).2
  | BreakerOp.rec_success => cb.record_success
  | BreakerOp.rec_failure now => cb.record_failure now

/-- Modelled from the spec: the transition relation of the state machine in
§4.2 of the spec — closed -> open -> half_open -> closed or open, with
self-loops allowed (an operation that leaves the state unchanged is not a
transition).  Used to compare the code's actual transitions against the
spec's machine. -/
def specStateMachineEdge : CircuitState → CircuitState → Bool
  | CircuitState.CLOSED, CircuitState.CLOSED => true
  | CircuitState.CLOSED, CircuitState.OPEN => true
  | CircuitState.OPEN, CircuitState.OPEN => true
  | CircuitState.OPEN, CircuitState.HALF_OPEN => true
  | CircuitState.HALF_OPEN, CircuitState.HALF_OPEN => true
  | CircuitState.HALF_OPEN, CircuitState.CLOSED => true
  | CircuitState.HALF_OPEN, CircuitState.OPEN => true
  | _, _ => false

/-- The spec machine extended with the one transition the code actually
performs in addition: `record_success` while OPEN jumps straight to CLOSED. -/
def amendedStateMachineEdge (a b : CircuitState) : Bool :=
  specStateMachineEdge a b ||
    (a = CircuitState.OPEN && b = CircuitState.CLOSED)

/-! ## Tool registry and dispatcher (`app/functions/registry.py`) -/

/-- A registered tool implementation (`_FUNCTION_REGISTRY` values): takes the
argument dict and either returns a result dict or raises.  The database
session argument carries no information relevant to dispatch and is omitted. -/
abbrev Handler := JObj → Except PyExn JObj

/-- `execute_function`: unknown names produce an error dict; a raising
handler is converted to an error dict; otherwise the handler's dict is
returned unchanged. -/
def execute_function (registry : List (String × Handler))
    (function_name : String) (args : JObj) : JObj :=
  match registry.lookup function_name with
  | none => [("error", Jval.str ("Unknown function: " ++ function_name))]
  | some func =>
    match func args with
    | Except.ok result => result
    | Except.error e => [("error", Jval.str ("Function execution failed: " ++ e))]

/-! ## Gemini provider (`app/services/llm_service.py`, `GeminiProvider`)

The `google.genai` response object tree is modelled structurally: optional
attributes become `Option`, lists stay lists.  A caught Python
`AttributeError` on a missing/None attribute corresponds to the `none`
branch of the corresponding match. -/

/-- `types.FunctionCall`: a tool invocation requested by the model. -/
structure FunctionCall where
  name : String
  args : Option JObj

/-- `types.FunctionResponse`: the dict passed back carries
`{"result": json.dumps(result)}`. -/
structure FunctionResponse where
  name : String
  response : List (String × String)

/-- `types.Part`: at most one payload field is set in practice, but the
model does not assume that. -/
structure GPart where
  function_call : Option FunctionCall
  text : Option String
  thought_signature : Option String
  function_response : Option FunctionResponse

/-- `types.Content`. -/
structure GContent where
  role : String
  parts : List GPart

/-- One entry of `response.candidates`. -/
structure GCandidate where
  content : Option GContent

/-- A Gemini `generate_content` response. -/
structure GResponse where
  candidates : List GCandidate

/-- A Gemini conversation entry as stored in `contents`: the code can append
`response.candidates[0].content` even when that attribute is None, so an
entry is an optional `Content`. -/
abbrev GTurn := Option GContent

/-- Python truthiness of an optional string/bytes value (`if thought_sig:`):
None and the empty value are falsy. -/
def pyTruthyStr : Option String → Bool
  | none => false
  | some s => s ≠ ""

/-- `GeminiProvider.has_function_call`: looks only at the first part of the
first candidate; requires a truthy `function_call` with a truthy name.
All `AttributeError`/`IndexError` paths return False. -/
def GeminiProvider.has_function_call (response : GResponse) : Bool :=
  match response.candidates with
  | [] => false
  | c :: _ =>
    match c.content with
    | none => false
    | some content =>
      match content.parts with
      | [] => false
      | p :: _ =>
        match p.function_call with
        | none => false
        | some fc => fc.name ≠ ""

/-- `GeminiProvider.extract_function_call_part`: first part of the first
candidate whose `function_call` is truthy; None on any missing piece. -/
def GeminiProvider.extract_function_call_part (response : GResponse) : Option GPart :=
  match response.candidates with
  | [] => none
  | c :: _ =>
    match c.content with
    | none => none
    | some content => content.parts.find? (fun p => p.function_call.isSome)

/-- The name/args record produced by `extract_function_call`
(`{"name": ..., "args": ...}`). -/
structure FnCallInfo where
  name : String
  args : JObj

/-- `GeminiProvider.extract_function_call`: reads the extracted part;
`dict(fc.args) if fc.args else {}` collapses a missing or empty args dict
to the empty dict. -/
def GeminiProvider.extract_function_call (response : GResponse) : Option FnCallInfo :=
  match GeminiProvider.extract_function_call_part response with
  | none => none
  | some part =>
    match part.function_call with
    | none => none
    | some fc => some { name := fc.name, args := fc.args.getD [] }

/-- `GeminiProvider.extract_text`: first truthy `text` among the first
candidate's parts, else the empty string. -/
def GeminiProvider.extract_text (response : GResponse) : String :=
  match response.candidates with
  | [] => ""
  | c :: _ =>
    match c.content with
    | none => ""
    | some content =>
      match content.parts.find? (fun p => pyTruthyStr p.text) with
      | some p => p.text.getD ""
      | none => ""

/-- `GeminiProvider.build_function_response`: appends the complete model
content (`response.candidates[0].content`, an uncaught IndexError if there
is no candidate) and then a user-role turn holding the FunctionResponse
part; the `thought_signature` of the function-call part is re-attached only
when truthy. -/
def GeminiProvider.build_function_response (jdumps : JObj → String)
    (name : String) (result : JObj) (response : GResponse)
    (function_call_part : Option GPart) : Except PyExn (List GTurn) :=
  match response.candidates with
  | [] => Except.error "IndexError"
  | c :: _ =>
    let model_content : GTurn := c.content
    let thought_sig : Option String :=
      match function_call_part with
      | none => none
      | some p => p.thought_signature
    let function_response_part : GPart :=
      if pyTruthyStr thought_sig then
        { function_call := none, text := none,
          thought_signature := thought_sig,
          function_response := some { name := name, response := [("result", jdumps result)] } }
      else
        { function_call := none, text := none,
          thought_signature := none,
          function_response := some { name := name, response := [("result", jdumps result)] } }
    Except.ok [model_content,
      some { role := "user", parts := [function_response_part] }]

/-- `GeminiProvider.build_content`: a single-text-part content object. -/
def GeminiProvider.build_content (role : String) (text : String) : GTurn :=
  some { role := role,
         parts := [{ function_call := none, text := some text,
                     thought_signature := none, function_response := none }] }

/-! ## OpenAI provider (`app/services/llm_service.py`, `OpenAIProvider`) -/

/-- `tool_call.function`: the function name plus the raw JSON-string
arguments. -/
structure OFunction where
  name : String
  arguments : String

/-- One entry of `message.tool_calls`. -/
structure OToolCall where
  id : String
  function : OFunction

/-- `choice.message`. -/
structure OMessage where
  content : Option String
  tool_calls : Option (List OToolCall)

/-- One entry of `response.choices`. -/
structure OChoice where
  message : OMessage

/-- An OpenAI chat-completions response. -/
structure OResponse where
  choices : List OChoice

/-- An OpenAI conversation entry: the plain message dicts the adapter
builds (`role`, `content`, `tool_call_id`, `tool_calls`). -/
structure OMsg where
  role : String
  content : Option String
  tool_call_id : Option String
  tool_calls : Option (List OToolCall)

/-- `OpenAIProvider.has_function_call`: `bool(choice.message.tool_calls)`,
with IndexError on a missing choice caught and converted to False. -/
def OpenAIProvider.has_function_call (response : OResponse) : Bool :=
  match response.choices with
  | [] => false
  | choice :: _ =>
    match choice.message.tool_calls with
    | none => false
    | some l => !l.isEmpty

/-- `OpenAIProvider.extract_function_call`: subscripts
`message.tool_calls[0]`.  An empty list raises IndexError (caught, None);
a None `tool_calls` raises TypeError, which is NOT in the caught tuple and
therefore escapes.  A JSON decode failure of the arguments is caught and
yields None; falsy (empty) arguments skip the parse and give empty args. -/
def OpenAIProvider.extract_function_call (jloads : String → Option JObj)
    (response : OResponse) : Except PyExn (Option FnCallInfo) :=
  match response.choices with
  | [] => Except.ok none
  | choice :: _ =>
    match choice.message.tool_calls with
    | none => Except.error "TypeError"
    | some [] => Except.ok none
    | some (tool_call :: _) =>
      if tool_call.function.arguments = "" then
        Except.ok (some { name := tool_call.function.name, args := [] })
      else
        match jloads tool_call.function.arguments with
        | none => Except.ok none
        | some args => Except.ok (some { name := tool_call.function.name, args := args })

/-- `OpenAIProvider.extract_function_call_part`: same subscripting as
`extract_function_call`, returning the raw tool-call object. -/
def OpenAIProvider.extract_function_call_part (response : OResponse) :
    Except PyExn (Option OToolCall) :=
  match response.choices with
  | [] => Except.ok none
  | choice :: _ =>
    match choice.message.tool_calls with
    | none => Except.error "TypeError"
    | some [] => Except.ok none
    | some (tool_call :: _) => Except.ok (some tool_call)

/-- `OpenAIProvider.extract_text`: `content or ""`. -/
def OpenAIProvider.extract_text (response : OResponse) : String :=
  match response.choices with
  | [] => ""
  | choice :: _ => choice.message.content.getD ""

/-- `OpenAIProvider.build_function_response`: an assistant message replaying
the tool call (id, name, raw arguments) followed by a tool-role message
whose `tool_call_id` matches and whose content is the serialized result.
Accessing `.id` on a None part raises AttributeError. -/
def OpenAIProvider.build_function_response (jdumps : JObj → String)
    (_name : String) (result : JObj) (_response : OResponse)
    (function_call_part : Option OToolCall) : Except PyExn (List OMsg) :=
  match function_call_part with
  | none => Except.error "AttributeError"
  | some part =>
    let replayed_call : OToolCall :=
      { id := part.id,
        function := { name := part.function.name,
                      arguments := part.function.arguments } }
    let assistant_msg : OMsg :=
      { role := "assistant", content := none, tool_call_id := none,
        tool_calls := some [replayed_call] }
    let tool_msg : OMsg :=
      { role := "tool", content := some (jdumps result),
        tool_call_id := some part.id, tool_calls := none }
    Except.ok [assistant_msg, tool_msg]

/-- `OpenAIProvider.build_content`. -/
def OpenAIProvider.build_content (role : String) (text : String) : OMsg :=
  { role := role, content := some text, tool_call_id := none, tool_calls := none }

/-! ## Provider interface and the function-calling loop
(`app/services/chat_service.py`, `ChatService.process_message`) -/

/-- The slice of `BaseLLMProvider` that `process_message` consults, with
each method's possible uncaught Python exceptions exposed via `Except`.
`R` is the provider's response type, `T` its conversation-entry type and
`P` its raw function-call-part type. -/
structure ProviderM (R T P : Type) where
  has_function_call : R → Except PyExn Bool
  extract_function_call : R → Except PyExn (Option FnCallInfo)
  extract_function_call_part : R → Except PyExn (Option P)
  extract_text : R → Except PyExn String
  build_function_response : String → JObj → R → Option P → Except PyExn (List T)
  build_content : String → String → T

/-- The Gemini adapter bundled behind the provider interface; its extraction
methods catch every exception their bodies can raise, so they are wrapped
as always-ok. -/
def geminiPM (jdumps : JObj → String) : ProviderM GResponse GTurn GPart :=
  { has_function_call := fun r => Except.ok (GeminiProvider.has_function_call r),
    extract_function_call := fun r => Except.ok (GeminiProvider.extract_function_call r),
    extract_function_call_part := fun r => Except.ok (GeminiProvider.extract_function_call_part r),
    extract_text := fun r => Except.ok (GeminiProvider.extract_text r),
    build_function_response := GeminiProvider.build_function_response jdumps,
    build_content := GeminiProvider.build_content }

/-- The OpenAI adapter bundled behind the provider interface. -/
def openaiPM (jdumps : JObj → String) (jloads : String → Option JObj) :
    ProviderM OResponse OMsg OToolCall :=
  { has_function_call := fun r => Except.ok (OpenAIProvider.has_function_call r),
    extract_function_call := OpenAIProvider.extract_function_call jloads,
    extract_function_call_part := OpenAIProvider.extract_function_call_part,
    extract_text := fun r => Except.ok (OpenAIProvider.extract_text r),
    build_function_response := OpenAIProvider.build_function_response jdumps,
    build_content := OpenAIProvider.build_content }

/-- `MAX_FUNCTION_CALL_ITERATIONS` of `chat_service.py`. -/
def MAX_FUNCTION_CALL_ITERATIONS : Nat := 25

/-- An ASCII apostrophe, spelled via its code point. -/
def apos : String := String.singleton (Char.ofNat 39)

/-- The graceful-degradation text returned when the breaker denies entry. -/
def degradationMessage : String :=
  "I" ++ apos ++ "m currently experiencing issues connecting to the AI service. " ++
    "Please try again in a moment."

/-- The apology produced by the `except Exception` handler around the loop. -/
def apologyMessage : String :=
  "I" ++ apos ++ "m sorry, I encountered an error processing your request. Please try again."

/-- The fallback text used when the iteration limit was reached and the last
response carried no text. -/
def limitMessage : String :=
  "I gathered some information but reached my processing limit. " ++
    "Please try asking your question again, and I" ++ apos ++ "ll do my best to help."

/-- One recorded call on the shared breaker during a run
(`record_success` / `record_failure` around each `generate`). -/
inductive BEvent where
  | success
  | failure
deriving DecidableEq, Repr

/-- Result of the `while` loop inside `process_message`: either the loop
finished (guard false, extraction returned nothing, or the iteration bound
was reached) or an exception escaped to the enclosing handler (`caught`). -/
inductive LoopOut (R T : Type) where
  | done (resp : R) (iteration calls : Nat) (contents : List T)
      (fns : List String) (evs : List BEvent)
  | caught (e : PyExn) (iteration calls : Nat) (contents : List T)
      (fns : List String) (evs : List BEvent)

/-- The function-calling `while` loop.  `fuel` counts the iterations still
allowed (`MAX_FUNCTION_CALL_ITERATIONS - iteration`), `calls` is the index
of the next backend call, `fns` accumulates `functions_called` and `evs`
the breaker recordings. -/
def fcLoop {R T P : Type} (pr : ProviderM R T P) (backend : Nat → Except PyExn R)
    (registry : List (String × Handler)) :
    Nat → Nat → Nat → R → List T → List String → List BEvent → LoopOut R T
  | 0, iteration, calls, resp, contents, fns, evs =>
    LoopOut.done resp iteration calls contents fns evs
  | fuel + 1, iteration, calls, resp, contents, fns, evs =>
    match pr.has_function_call resp with
    | Except.error e => LoopOut.caught e iteration calls contents fns evs
    | Except.ok false => LoopOut.done resp iteration calls contents fns evs
    | Except.ok true =>
      match pr.extract_function_call resp with
      | Except.error e => LoopOut.caught e iteration calls contents fns evs
      | Except.ok fcOpt =>
        match pr.extract_function_call_part resp with
        | Except.error e => LoopOut.caught e iteration calls contents fns evs
        | Except.ok part =>
          match fcOpt with
          | none => LoopOut.done resp iteration calls contents fns evs
          | some fc =>
            let function_result := execute_function registry fc.name fc.args
            match pr.build_function_response fc.name function_result resp part with
            | Except.error e =>
              LoopOut.caught e iteration calls contents (fns ++ [fc.name]) evs
            | Except.ok response_items =>
              match backend calls with
              | Except.error e =>
                LoopOut.caught e iteration (calls + 1)
                  (contents ++ response_items) (fns ++ [fc.name]) (evs ++ [BEvent.failure])
              | Except.ok resp' =>
                fcLoop pr backend registry fuel (iteration + 1) (calls + 1) resp'
                  (contents ++ response_items) (fns ++ [fc.name]) (evs ++ [BEvent.success])

/-- The observable outcome of one `process_message` run: the returned text,
the raw text extracted from the last response before the limit fallback,
the `functions_called` metadata, the number of backend `generate` calls
attempted, the loop iteration counter, the final `contents` list and the
breaker recordings. -/
structure RunResult (T : Type) where
  finalText : String
  rawText : String
  functionsCalled : List String
  genCalls : Nat
  iterations : Nat
  contents : List T
  events : List BEvent

/-- `ChatService.process_message`, restricted to its orchestration core:
breaker gate, initial `generate`, the function-calling loop, final text
extraction and the limit fallback.  Database persistence and progress
callbacks carry no information used by any claim and are omitted.  The
`Except` result captures whether an exception escapes to the caller: the
`except Exception` handler converts every exception raised after the gate
into an ordinary apology response, so every branch below is `Except.ok`. -/
def processMessage {R T P : Type} (pr : ProviderM R T P)
    (cb : CircuitBreaker) (now : ℚ) (backend : Nat → Except PyExn R)
    (registry : List (String × Handler)) (history : List T)
    (userMessage : String) : Except PyExn (RunResult T) :=
  if (cb.allow_request now).1 = false then
    Except.ok { finalText := degradationMessage, rawText := degradationMessage,
                functionsCalled := [], genCalls := 0, iterations := 0,
                contents := [], events := [] }
  else
    let contents0 := history ++ [pr.build_content "user" userMessage]
    match backend 0 with
    | Except.error _ =>
      Except.ok { finalText := apologyMessage, rawText := apologyMessage,
                  functionsCalled := [], genCalls := 1, iterations := 0,
                  contents := contents0, events := [BEvent.failure] }
    | Except.ok resp0 =>
      match fcLoop pr backend registry MAX_FUNCTION_CALL_ITERATIONS 0 1 resp0
          contents0 [] [BEvent.success] with
      | LoopOut.caught _ iteration calls contents _ evs =>
        Except.ok { finalText := apologyMessage, rawText := apologyMessage,
                    functionsCalled := [], genCalls := calls, iterations := iteration,
                    contents := contents, events := evs }
      | LoopOut.done resp iteration calls contents fns evs =>
        match pr.extract_text resp with
        | Except.error _ =>
          Except.ok { finalText := apologyMessage, rawText := apologyMessage,
                      functionsCalled := [], genCalls := calls, iterations := iteration,
                      contents := contents, events := evs }
        | Except.ok txt =>
          let finalText :=
            if txt = "" ∧ iteration ≥ MAX_FUNCTION_CALL_ITERATIONS then limitMessage
            else txt
          Except.ok { finalText := finalText, rawText := txt,
                      functionsCalled := fns, genCalls := calls, iterations := iteration,
                      contents := contents, events := evs }

/-- Loop iteration counter of a loop outcome. -/
def LoopOut.iterationOf {R T : Type} : LoopOut R T → Nat
  | LoopOut.done _ i _ _ _ _ => i
  | LoopOut.caught _ i _ _ _ _ => i

/-- Number of backend calls attempted by the end of a loop outcome. -/
def LoopOut.callsOf {R T : Type} : LoopOut R T → Nat
  | LoopOut.done _ _ c _ _ _ => c
  | LoopOut.caught _ _ c _ _ _ => c

/-- The tool-result names carried by one Gemini conversation entry: the
names of its `FunctionResponse` parts. -/
def gTurnToolResultNames : GTurn → List String
  | none => []
  | some c =>
    c.parts.flatMap (fun p =>
      match p.function_response with
      | some fr => [fr.name]
      | none => [])

/-- A Gemini backend response that is a pure model turn: none of its parts
is a `FunctionResponse` (true of everything `generate_content` returns). -/
def geminiModelTurn (r : GResponse) : Bool :=
  r.candidates.all (fun c =>
    match c.content with
    | none => true
    | some ct => ct.parts.all (fun p => p.function_response.isNone))

/-- A Gemini part requesting the `lookup` tool. -/
def runawayPart : GPart :=
  { function_call := some { name := "lookup", args := some [] }, text := none,
    thought_signature := none, function_response := none }

/-- A Gemini response that always requests the same tool call. -/
def runawayResponse : GResponse :=
  { candidates := [{ content := some { role := "model", parts := [runawayPart] } }] }

/-- A Gemini text part. -/
def helloPart : GPart :=
  { function_call := none, text := some "hello",
    thought_signature := none, function_response := none }

/-- A Gemini response carrying only text. -/
def textResponse : GResponse :=
  { candidates := [{ content := some { role := "model", parts := [helloPart] } }] }

/-- A Gemini tool-call part carrying the continuation token "sig". -/
def sigPart : GPart :=
  { function_call := some { name := "f", args := some [] }, text := none,
    thought_signature := some "sig", function_response := none }

/-- A Gemini response whose only candidate is an empty model turn. -/
def emptyModelResponse : GResponse :=
  { candidates := [{ content := some { role := "model", parts := [] } }] }

/-- The run produced by a backend that always returns `runawayResponse`:
the loop spins until the iteration bound. -/
def runawayRun : RunResult GTurn :=
  match processMessage (geminiPM (fun _ => "")) gemini_breaker 0
      (fun _ => Except.ok runawayResponse) [] [] "hi" with
  | Except.ok r => r
  | Except.error _ =>
    { finalText := "", rawText := "", functionsCalled := [], genCalls := 0,
      iterations := 0, contents := [], events := [] }

/-- The run produced by a backend that immediately answers with text. -/
def textRun : RunResult GTurn :=
  match processMessage (geminiPM (fun _ => "")) gemini_breaker 0
      (fun _ => Except.ok textResponse) [] [] "hi" with
  | Except.ok r => r
  | Except.error _ =>
    { finalText := "", rawText := "", functionsCalled := [], genCalls := 0,
      iterations := 0, contents := [], events := [] }

/-- A breaker that is OPEN with a fresh failure (requests are denied until
the recovery timeout elapses). -/
def openBreaker : CircuitBreaker :=
  { name := "gemini", failure_threshold := 5, recovery_timeout := 30,
    state_ := CircuitState.OPEN, failure_count := 5, last_failure_time := 0 }

/-- A backend whose initial `generate` answers with a tool call and whose
second call (the first in-loop call, `chat_service.py` lines 347-352)
raises. -/
def errAtSecondBackend : Nat → Except PyExn GResponse :=
  fun k => if k = 0 then Except.ok runawayResponse else Except.error "RuntimeError"

/-- The run produced by `errAtSecondBackend`: one tool execution, then the
in-loop backend call raises and the enclosing handler converts it. -/
def loopErrorRun : RunResult GTurn :=
  match processMessage (geminiPM (fun _ => "")) gemini_breaker 0
      errAtSecondBackend [] [] "hi" with
  | Except.ok r => r
  | Except.error _ =>
    { finalText := "", rawText := "", functionsCalled := [], genCalls := 0,
      iterations := 0, contents := [], events := [] }

/-- An OpenAI tool call requesting `lookup` with empty (falsy) arguments. -/
def tcLookup : OToolCall :=
  { id := "call_1", function := { name := "lookup", arguments := "" } }

/-- An OpenAI response whose first choice requests `tcLookup`. -/
def oaiToolResponse : OResponse :=
  { choices := [{ message := { content := none, tool_calls := some [tcLookup] } }] }

/-! ## Breaker lemmas -/

/-- `record_failure` never touches the configuration fields. -/
lemma record_failure_config (cb : CircuitBreaker) (now : ℚ) :
    (cb.record_failure now).failure_threshold = cb.failure_threshold ∧
    (cb.record_failure now).recovery_timeout = cb.recovery_timeout := by
  simp [CircuitBreaker.record_failure]

/-- Folding `record_failure` never touches the configuration fields. -/
lemma foldl_record_failure_config (ts : List ℚ) (cb : CircuitBreaker) :
    (ts.foldl CircuitBreaker.record_failure cb).failure_threshold = cb.failure_threshold ∧
    (ts.foldl CircuitBreaker.record_failure cb).recovery_timeout = cb.recovery_timeout := by
  induction ts generalizing cb with
  | nil => simp
  | cons t ts ih =>
    simpa [CircuitBreaker.record_failure] using ih (cb.record_failure t)

/-- Once OPEN, further `record_failure` calls leave the breaker OPEN. -/
lemma foldl_record_failure_open (ts : List ℚ) (cb : CircuitBreaker)
    (h : cb.state_ = CircuitState.OPEN) :
    (ts.foldl CircuitBreaker.record_failure cb).state_ = CircuitState.OPEN := by
  induction ts generalizing cb with
  | nil => simpa
  | cons t ts ih =>
    apply ih
    simp only [CircuitBreaker.record_failure, h]
    split <;> simp_all

/-- Folding `record_failure` adds the list length to the failure count. -/
lemma foldl_record_failure_count (ts : List ℚ) (cb : CircuitBreaker) :
    (ts.foldl CircuitBreaker.record_failure cb).failure_count =
      cb.failure_count + ts.length := by
  induction ts generalizing cb with
  | nil => simp
  | cons t ts ih =>
    rw [List.foldl_cons, ih (cb.record_failure t)]
    simp only [CircuitBreaker.record_failure, List.length_cons]
    omega

/-- From CLOSED below the threshold, enough consecutive failures reach OPEN. -/
lemma foldl_record_failure_reaches_open (ts : List ℚ) (cb : CircuitBreaker)
    (h1 : cb.state_ = CircuitState.CLOSED)
    (h2 : cb.failure_count < cb.failure_threshold)
    (h3 : cb.failure_threshold ≤ cb.failure_count + ts.length) :
    (ts.foldl CircuitBreaker.record_failure cb).state_ = CircuitState.OPEN := by
  induction ts generalizing cb with
  | nil => simp at h3; omega
  | cons t ts ih =>
    by_cases hth : cb.failure_threshold ≤ cb.failure_count + 1
    · have hopen : (cb.record_failure t).state_ = CircuitState.OPEN := by
        simp [CircuitBreaker.record_failure, h1, hth]
      simpa using foldl_record_failure_open ts (cb.record_failure t) hopen
    · have hstate : (cb.record_failure t).state_ = CircuitState.CLOSED := by
        simp [CircuitBreaker.record_failure, h1]
        omega
      have hcount : (cb.record_failure t).failure_count = cb.failure_count + 1 := by
        simp [CircuitBreaker.record_failure]
    -- configuration is untouched, so the threshold comparison carries over
      have hconf := record_failure_config cb t
      simp only [List.foldl_cons]
      apply ih (cb.record_failure t) hstate <;> simp [hconf.1, hcount] <;> simp at h3 <;> omega

/-- C2 counterexample: starting from the pristine `gemini_breaker`, five
`record_failure` calls open the circuit, and then a single
`record_success` jumps straight from OPEN to CLOSED — an edge the spec's
state machine (closed -> open -> half_open -> closed/open) does not have. -/
theorem c2_record_success_skips_half_open_cex :
    ((List.replicate 5 (0 : ℚ)).foldl CircuitBreaker.record_failure gemini_breaker).state_ =
      CircuitState.OPEN ∧
    ((List.replicate 5 (0 : ℚ)).foldl CircuitBreaker.record_failure
        gemini_breaker).record_success.state_ = CircuitState.CLOSED ∧
    specStateMachineEdge CircuitState.OPEN CircuitState.CLOSED = false := by
  refine ⟨?_, ?_, rfl⟩ <;> decide

/-- C2 amended: every transition performed by `state` reads,
`allow_request`, `record_failure` and `record_success` follows the spec's
state machine, except that `record_success` jumps directly from OPEN to
CLOSED (it sets CLOSED unconditionally, not only from HALF_OPEN). -/
theorem c2_transitions_follow_amended_machine (cb : CircuitBreaker) (op : BreakerOp) :
    amendedStateMachineEdge cb.state_ (applyBreakerOp cb op).state_ = true := by
  cases op with
  | state_read now =>
    rcases le_or_lt cb.recovery_timeout (now - cb.last_failure_time) with hto | hto
    · cases h : cb.state_ <;>
        simp [applyBreakerOp, CircuitBreaker.state, h, hto, amendedStateMachineEdge,
          specStateMachineEdge]
    · have hto' : ¬ (cb.recovery_timeout ≤ now - cb.last_failure_time) := not_le.mpr hto
      cases h : cb.state_ <;>
        simp [applyBreakerOp, CircuitBreaker.state, h, hto', amendedStateMachineEdge,
          specStateMachineEdge]
  | allow_req now =>
    rcases le_or_lt cb.recovery_timeout (now - cb.last_failure_time) with hto | hto
    · cases h : cb.state_ <;>
        simp [applyBreakerOp, CircuitBreaker.allow_request, CircuitBreaker.state, h, hto,
          amendedStateMachineEdge, specStateMachineEdge]
    · have hto' : ¬ (cb.recovery_timeout ≤ now - cb.last_failure_time) := not_le.mpr hto
      cases h : cb.state_ <;>
        simp [applyBreakerOp, CircuitBreaker.allow_request, CircuitBreaker.state, h, hto',
          amendedStateMachineEdge, specStateMachineEdge]
  | rec_success =>
    cases h : cb.state_ <;>
      simp [applyBreakerOp, CircuitBreaker.record_success, h, amendedStateMachineEdge,
        specStateMachineEdge]
  | rec_failure now =>
    rcases le_or_lt cb.failure_threshold (cb.failure_count + 1) with hth | hth
    · cases h : cb.state_ <;>
        simp [applyBreakerOp, CircuitBreaker.record_failure, h, hth,
          amendedStateMachineEdge, specStateMachineEdge]
    · have hth' : ¬ (cb.failure_threshold ≤ cb.failure_count + 1) := not_le.mpr hth
      cases h : cb.state_ <;>
        simp [applyBreakerOp, CircuitBreaker.record_failure, h, hth',
          amendedStateMachineEdge, specStateMachineEdge]

/-- C5: from CLOSED with zero failures, `failure_threshold` consecutive
`record_failure` calls open the breaker; `allow_request` before the
recovery timeout has elapsed since the last recorded failure returns
false; the first `state` query after it has elapsed moves to HALF_OPEN and
`allow_request` then returns true; one `record_failure` while half-open
reopens; one `record_success` while half-open closes and zeroes the count. -/
theorem c5_breaker_scenario (cb cb1 : CircuitBreaker) (ts : List ℚ)
    (h1 : cb.state_ = CircuitState.CLOSED) (h2 : cb.failure_count = 0)
    (h3 : 0 < cb.failure_threshold) (h4 : ts.length = cb.failure_threshold)
    (hcb1 : cb1 = ts.foldl CircuitBreaker.record_failure cb) :
    cb1.state_ = CircuitState.OPEN ∧
    (∀ now : ℚ, now - cb1.last_failure_time < cb1.recovery_timeout →
      (cb1.allow_request now).1 = false) ∧
    (∀ now : ℚ, cb1.recovery_timeout ≤ now - cb1.last_failure_time →
      (cb1.state now).1 = CircuitState.HALF_OPEN ∧
      (cb1.allow_request now).1 = true ∧
      (∀ now2 : ℚ, (((cb1.state now).2).record_failure now2).state_ = CircuitState.OPEN) ∧
      (cb1.state now).2.record_success.state_ = CircuitState.CLOSED ∧
      (cb1.state now).2.record_success.failure_count = 0) := by
  subst hcb1
  have hopen := foldl_record_failure_reaches_open ts cb h1 (by omega) (by omega)
  set cb1 := ts.foldl CircuitBreaker.record_failure cb with hcb1
  refine ⟨hopen, ?_, ?_⟩
  · intro now hlt
    have hnot : ¬ (cb1.recovery_timeout ≤ now - cb1.last_failure_time) := not_le.mpr hlt
    simp [CircuitBreaker.allow_request, CircuitBreaker.state, hopen, hnot]
  · intro now hge
    have hhalf : (cb1.state now).1 = CircuitState.HALF_OPEN := by
      simp [CircuitBreaker.state, hopen, hge]
    have hcb2 : (cb1.state now).2.state_ = CircuitState.HALF_OPEN := by
      simp [CircuitBreaker.state, hopen, hge]
    refine ⟨hhalf, ?_, ?_, ?_, ?_⟩
    · simp [CircuitBreaker.allow_request, CircuitBreaker.state, hopen, hge]
    · intro now2
      simp [CircuitBreaker.record_failure, hcb2]
    · simp [CircuitBreaker.record_success]
    · simp [CircuitBreaker.record_success]

/-- C5 witness: a breaker with threshold 2 and timeout 30, failed at times
0 and 5; queried at time 10 (still open) and at time 40 (half-open). -/
theorem c5_breaker_scenario_witness :
    ({ name := "b", failure_threshold := 2, recovery_timeout := 30,
       state_ := CircuitState.OPEN, failure_count := 2,
       last_failure_time := 5 } : CircuitBreaker).state_ = CircuitState.OPEN ∧
    (({ name := "b", failure_threshold := 2, recovery_timeout := 30,
        state_ := CircuitState.OPEN, failure_count := 2,
        last_failure_time := 5 } : CircuitBreaker).allow_request 10).1 = false ∧
    (({ name := "b", failure_threshold := 2, recovery_timeout := 30,
        state_ := CircuitState.OPEN, failure_count := 2,
        last_failure_time := 5 } : CircuitBreaker).state 40).1 = CircuitState.HALF_OPEN := by
  have h := c5_breaker_scenario
    { name := "b", failure_threshold := 2, recovery_timeout := 30,
      state_ := CircuitState.CLOSED, failure_count := 0, last_failure_time := 0 }
    { name := "b", failure_threshold := 2, recovery_timeout := 30,
      state_ := CircuitState.OPEN, failure_count := 2, last_failure_time := 5 }
    [0, 5] rfl rfl (by norm_num) (by norm_num)
    (by norm_num [CircuitBreaker.record_failure])
  refine ⟨h.1, h.2.1 10 (by norm_num), (h.2.2 40 (by norm_num)).1⟩

/-- C7: `execute_function` never raises: an unregistered name yields the
"Unknown function" error dict, and a handler that raises is converted to
the "Function execution failed" error dict — the same error shape a
handler returning an error dict would produce. -/
theorem c7_execute_function_error_shape (registry : List (String × Handler))
    (function_name : String) (args : JObj) :
    (registry.lookup function_name = none →
      execute_function registry function_name args =
        [("error", Jval.str ("Unknown function: " ++ function_name))]) ∧
    (∀ (func : Handler) (e : PyExn),
      registry.lookup function_name = some func →
      func args = Except.error e →
      execute_function registry function_name args =
        [("error", Jval.str ("Function execution failed: " ++ e))]) := by
  constructor
  · intro h
    simp [execute_function, h]
  · intro func e h1 h2
    simp [execute_function, h1, h2]

/-- C7 witness: dispatch on an empty registry and on a handler that raises. -/
theorem c7_execute_function_error_shape_witness :
    execute_function [] "nope" [] =
      [("error", Jval.str ("Unknown function: " ++ "nope"))] ∧
    execute_function [("boom", fun _ => Except.error "ValueError")] "boom" [] =
      [("error", Jval.str ("Function execution failed: " ++ "ValueError"))] :=
  ⟨(c7_execute_function_error_shape [] "nope" []).1 rfl,
   (c7_execute_function_error_shape
      [("boom", fun _ => Except.error "ValueError")] "boom" []).2
      (fun _ => Except.error "ValueError") "ValueError" rfl rfl⟩

/-- C8 counterexample: a tool-call part carrying the empty continuation
token (`thought_signature = some ""`, present but falsy in Python) is
given an un-tokened tool-result turn: the built FunctionResponse part has
`thought_signature = none`, not the exact token found on the part. -/
theorem c8_empty_token_dropped_cex :
    ({ function_call := some { name := "f", args := some [] }, text := none,
       thought_signature := some "", function_response := none } : GPart).thought_signature =
      some "" ∧
    GeminiProvider.build_function_response (fun _ => "") "f" []
      { candidates := [{ content := some { role := "model", parts := [] } }] }
      (some { function_call := some { name := "f", args := some [] }, text := none,
              thought_signature := some "", function_response := none }) =
      Except.ok [some { role := "model", parts := [] },
        some { role := "user",
               parts := [{ function_call := none, text := none,
                           thought_signature := none,
                           function_response :=
                             some { name := "f", response := [("result", "")] } }] }] :=
  ⟨rfl, rfl⟩

/-- C8 amended: `build_function_response` re-attaches the exact
continuation token when it is present AND non-empty (Python truthiness);
a missing or empty token yields an un-tokened tool-result turn. -/
theorem c8_token_reattached_iff_truthy (jdumps : JObj → String) (name : String)
    (result : JObj) (response : GResponse) (part : Option GPart) (items : List GTurn)
    (h : GeminiProvider.build_function_response jdumps name result response part =
      Except.ok items) :
    ∃ mc p, items = [mc, some { role := "user", parts := [p] }] ∧
      p.function_response = some { name := name, response := [("result", jdumps result)] } ∧
      p.thought_signature =
        (if pyTruthyStr (part.bind (fun q => q.thought_signature)) then
          part.bind (fun q => q.thought_signature)
        else none) := by
  cases response with
  | mk cands =>
    cases cands with
    | nil => simp [GeminiProvider.build_function_response] at h
    | cons c rest =>
      cases part with
      | none =>
        simp only [GeminiProvider.build_function_response, pyTruthyStr] at h ⊢
        simp at h
        exact ⟨c.content, _, h.symm, rfl, by simp [pyTruthyStr]⟩
      | some q =>
        by_cases ht : pyTruthyStr q.thought_signature
        · simp only [GeminiProvider.build_function_response, ht, if_true] at h
          simp at h
          exact ⟨c.content, _, h.symm, rfl, by simp [ht]⟩
        · simp only [GeminiProvider.build_function_response, ht, if_false] at h
          simp at h
          exact ⟨c.content, _, h.symm, rfl, by simp [ht]⟩

/-- C8 witness: a non-empty token "sig" is re-attached verbatim. -/
theorem c8_token_reattached_iff_truthy_witness :
    ∃ mc p,
      ([some { role := "model", parts := [] },
        some { role := "user",
               parts := [{ function_call := none, text := none,
                           thought_signature := some "sig",
                           function_response :=
                             some { name := "f", response := [("result", "")] } }] }] :
        List GTurn) = [mc, some { role := "user", parts := [p] }] ∧
      p.function_response = some { name := "f", response := [("result", "")] } ∧
      p.thought_signature =
        (if pyTruthyStr ((some sigPart).bind (fun q => q.thought_signature)) then
          (some sigPart).bind (fun q => q.thought_signature)
        else none) :=
  c8_token_reattached_iff_truthy (fun _ => "") "f" [] emptyModelResponse
    (some sigPart) _ rfl

/-- C10 counterexample: an OpenAI response whose first choice has
`tool_calls = None` makes `extract_function_call` and
`extract_function_call_part` raise TypeError (subscripting None is not in
the caught exception tuple), instead of returning None. -/
theorem c10_openai_tool_calls_none_raises_cex :
    OpenAIProvider.extract_function_call (fun _ => none)
      { choices := [{ message := { content := none, tool_calls := none } }] } =
      Except.error "TypeError" ∧
    OpenAIProvider.extract_function_call_part
      { choices := [{ message := { content := none, tool_calls := none } }] } =
      Except.error "TypeError" :=
  ⟨rfl, rfl⟩

/-- C10 amended: all four Gemini extraction operations are total and return
False/None/None/"" on degenerate responses (no candidates, None content,
no parts); OpenAI's `has_function_call` and `extract_text` are total, and
its `extract_function_call`/`extract_function_call_part` return None for a
missing choice or an empty tool-call list but raise TypeError when
`tool_calls` is None. -/
theorem c10_extraction_totality_amended (jloads : String → Option JObj) :
    (∀ r : GResponse, r.candidates = [] →
      GeminiProvider.has_function_call r = false ∧
      GeminiProvider.extract_function_call r = none ∧
      GeminiProvider.extract_function_call_part r = none ∧
      GeminiProvider.extract_text r = "") ∧
    (∀ (r : GResponse) (c : GCandidate) (cs : List GCandidate),
      r.candidates = c :: cs → c.content = none →
      GeminiProvider.has_function_call r = false ∧
      GeminiProvider.extract_function_call r = none ∧
      GeminiProvider.extract_function_call_part r = none ∧
      GeminiProvider.extract_text r = "") ∧
    (∀ (r : GResponse) (c : GCandidate) (cs : List GCandidate) (ct : GContent),
      r.candidates = c :: cs → c.content = some ct → ct.parts = [] →
      GeminiProvider.has_function_call r = false ∧
      GeminiProvider.extract_function_call r = none ∧
      GeminiProvider.extract_function_call_part r = none ∧
      GeminiProvider.extract_text r = "") ∧
    (∀ r : OResponse, r.choices = [] →
      OpenAIProvider.has_function_call r = false ∧
      OpenAIProvider.extract_function_call jloads r = Except.ok none ∧
      OpenAIProvider.extract_function_call_part r = Except.ok none ∧
      OpenAIProvider.extract_text r = "") ∧
    (∀ (r : OResponse) (ch : OChoice) (chs : List OChoice),
      r.choices = ch :: chs → ch.message.tool_calls = some [] →
      OpenAIProvider.has_function_call r = false ∧
      OpenAIProvider.extract_function_call jloads r = Except.ok none ∧
      OpenAIProvider.extract_function_call_part r = Except.ok none) ∧
    (∀ (r : OResponse) (ch : OChoice) (chs : List OChoice),
      r.choices = ch :: chs → ch.message.tool_calls = none →
      OpenAIProvider.has_function_call r = false ∧
      OpenAIProvider.extract_function_call jloads r = Except.error "TypeError" ∧
      OpenAIProvider.extract_function_call_part r = Except.error "TypeError" ∧
      OpenAIProvider.extract_text r = ch.message.content.getD "") := by
  refine ⟨?_, ?_, ?_, ?_, ?_, ?_⟩
  · intro r h
    simp [GeminiProvider.has_function_call, GeminiProvider.extract_function_call,
      GeminiProvider.extract_function_call_part, GeminiProvider.extract_text, h]
  · intro r c cs h1 h2
    simp [GeminiProvider.has_function_call, GeminiProvider.extract_function_call,
      GeminiProvider.extract_function_call_part, GeminiProvider.extract_text, h1, h2]
  · intro r c cs ct h1 h2 h3
    simp [GeminiProvider.has_function_call, GeminiProvider.extract_function_call,
      GeminiProvider.extract_function_call_part, GeminiProvider.extract_text, h1, h2, h3]
  · intro r h
    simp [OpenAIProvider.has_function_call, OpenAIProvider.extract_function_call,
      OpenAIProvider.extract_function_call_part, OpenAIProvider.extract_text, h]
  · intro r ch chs h1 h2
    simp [OpenAIProvider.has_function_call, OpenAIProvider.extract_function_call,
      OpenAIProvider.extract_function_call_part, h1, h2]
  · intro r ch chs h1 h2
    simp [OpenAIProvider.has_function_call, OpenAIProvider.extract_function_call,
      OpenAIProvider.extract_function_call_part, OpenAIProvider.extract_text, h1, h2]

/-- C10 witness: the degenerate responses instantiated concretely. -/
theorem c10_extraction_totality_amended_witness :
    (GeminiProvider.has_function_call { candidates := [] } = false ∧
     GeminiProvider.extract_function_call { candidates := [] } = none ∧
     GeminiProvider.extract_function_call_part { candidates := [] } = none ∧
     GeminiProvider.extract_text { candidates := [] } = "") ∧
    (OpenAIProvider.has_function_call { choices := [] } = false ∧
     OpenAIProvider.extract_function_call (fun _ => none) { choices := [] } = Except.ok none ∧
     OpenAIProvider.extract_function_call_part { choices := [] } = Except.ok none ∧
     OpenAIProvider.extract_text { choices := [] } = "") ∧
    (OpenAIProvider.has_function_call
        { choices := [{ message := { content := none, tool_calls := none } }] } = false ∧
     OpenAIProvider.extract_function_call (fun _ => none)
        { choices := [{ message := { content := none, tool_calls := none } }] } =
          Except.error "TypeError" ∧
     OpenAIProvider.extract_function_call_part
        { choices := [{ message := { content := none, tool_calls := none } }] } =
          Except.error "TypeError" ∧
     OpenAIProvider.extract_text
        { choices := [{ message := { content := none, tool_calls := none } }] } =
          ((none : Option String).getD "")) :=
  ⟨(c10_extraction_totality_amended (fun _ => none)).1 { candidates := [] } rfl,
   (c10_extraction_totality_amended (fun _ => none)).2.2.2.1 { choices := [] } rfl,
   (c10_extraction_totality_amended (fun _ => none)).2.2.2.2.2
     { choices := [{ message := { content := none, tool_calls := none } }] }
     { message := { content := none, tool_calls := none } } [] rfl rfl⟩

/-! ## Loop lemmas -/

/-- The loop advances the iteration counter and the call index by at most
one per unit of fuel. -/
lemma fcLoop_counts {R T P : Type} (pr : ProviderM R T P)
    (backend : Nat → Except PyExn R) (registry : List (String × Handler)) :
    ∀ (fuel iteration calls : Nat) (resp : R) (contents : List T)
      (fns : List String) (evs : List BEvent),
      (fcLoop pr backend registry fuel iteration calls resp contents fns evs).iterationOf ≤
        iteration + fuel ∧
      (fcLoop pr backend registry fuel iteration calls resp contents fns evs).callsOf ≤
        calls + fuel := by
  intro fuel
  induction fuel with
  | zero =>
    intro iteration calls resp contents fns evs
    simp [fcLoop, LoopOut.iterationOf, LoopOut.callsOf]
  | succ fuel ih =>
    intro iteration calls resp contents fns evs
    simp only [fcLoop]
    repeat' split
    all_goals
      first
        | (refine ⟨le_trans (ih (iteration + 1) (calls + 1) _ _ _ _).1 ?_,
              le_trans (ih (iteration + 1) (calls + 1) _ _ _ _).2 ?_⟩ <;> omega)
        | (simp [LoopOut.iterationOf, LoopOut.callsOf]; try omega)

/-- Backend-call provenance through the loop: if the response at entry was
produced by the preceding backend call (index `calls - 1`), then on normal
exit the final response was produced by the last backend call, which
succeeded; and on a caught exception, either the exception came from the
last backend call — with a breaker failure recorded as the final event —
or that call had succeeded and the exception came from a provider
operation instead. -/
lemma fcLoop_backend_provenance {R T P : Type} (pr : ProviderM R T P)
    (backend : Nat → Except PyExn R) (registry : List (String × Handler)) :
    ∀ (fuel iteration calls : Nat) (resp : R) (contents : List T)
      (fns : List String) (evs : List BEvent),
      backend (calls - 1) = Except.ok resp →
      (∀ (r2 : R) (i2 c2 : Nat) (cont2 : List T) (fns2 : List String)
        (evs2 : List BEvent),
        fcLoop pr backend registry fuel iteration calls resp contents fns evs =
          LoopOut.done r2 i2 c2 cont2 fns2 evs2 →
        backend (c2 - 1) = Except.ok r2) ∧
      (∀ (e : PyExn) (i2 c2 : Nat) (cont2 : List T) (fns2 : List String)
        (evs2 : List BEvent),
        fcLoop pr backend registry fuel iteration calls resp contents fns evs =
          LoopOut.caught e i2 c2 cont2 fns2 evs2 →
        (backend (c2 - 1) = Except.error e ∧ evs2.getLast? = some BEvent.failure) ∨
        (∃ r', backend (c2 - 1) = Except.ok r')) := by
  intro fuel
  induction fuel with
  | zero =>
    intro iteration calls resp contents fns evs hok
    constructor
    · intro r2 i2 c2 cont2 fns2 evs2 hdone
      simp only [fcLoop] at hdone
      cases hdone
      exact hok
    · intro e i2 c2 cont2 fns2 evs2 hcaught
      simp only [fcLoop] at hcaught
      cases hcaught
  | succ fuel ih =>
    intro iteration calls resp contents fns evs hok
    constructor
    · intro r2 i2 c2 cont2 fns2 evs2 hdone
      simp only [fcLoop] at hdone
      split at hdone
      · cases hdone
      · cases hdone
        exact hok
      · split at hdone
        · cases hdone
        · split at hdone
          · cases hdone
          · split at hdone
            · cases hdone
              exact hok
            · rename_i fc hfcopt
              split at hdone
              · cases hdone
              · rename_i items hbuild
                split at hdone
                · cases hdone
                · rename_i resp' hbk
                  exact (ih (iteration + 1) (calls + 1) resp' (contents ++ items)
                    (fns ++ [fc.name]) (evs ++ [BEvent.success])
                    (by simpa using hbk)).1 r2 i2 c2 cont2 fns2 evs2 hdone
    · intro e i2 c2 cont2 fns2 evs2 hcaught
      simp only [fcLoop] at hcaught
      split at hcaught
      · cases hcaught
        exact Or.inr ⟨resp, hok⟩
      · cases hcaught
      · split at hcaught
        · cases hcaught
          exact Or.inr ⟨resp, hok⟩
        · split at hcaught
          · cases hcaught
            exact Or.inr ⟨resp, hok⟩
          · split at hcaught
            · cases hcaught
            · rename_i fc hfcopt
              split at hcaught
              · cases hcaught
                exact Or.inr ⟨resp, hok⟩
              · rename_i items hbuild
                split at hcaught
                · rename_i e' hbk
                  cases hcaught
                  exact Or.inl ⟨by simpa using hbk, by simp⟩
                · rename_i resp' hbk
                  exact (ih (iteration + 1) (calls + 1) resp' (contents ++ items)
                    (fns ++ [fc.name]) (evs ++ [BEvent.success])
                    (by simpa using hbk)).2 e i2 c2 cont2 fns2 evs2 hcaught

/-- C1: one `process_message` run makes at most
`MAX_FUNCTION_CALL_ITERATIONS + 1` backend `generate` calls, and the loop
iteration counter never exceeds `MAX_FUNCTION_CALL_ITERATIONS`. -/
theorem c1_backend_call_and_iteration_bounds {R T P : Type} (pr : ProviderM R T P)
    (cb : CircuitBreaker) (now : ℚ) (backend : Nat → Except PyExn R)
    (registry : List (String × Handler)) (history : List T) (userMessage : String)
    (run : RunResult T)
    (h : processMessage pr cb now backend registry history userMessage = Except.ok run) :
    run.genCalls ≤ MAX_FUNCTION_CALL_ITERATIONS + 1 ∧
    run.iterations ≤ MAX_FUNCTION_CALL_ITERATIONS := by
  unfold processMessage at h
  split at h
  · cases h
    simp [MAX_FUNCTION_CALL_ITERATIONS]
  · split at h
    · cases h
      simp [MAX_FUNCTION_CALL_ITERATIONS]
    · rename_i resp0 _
      have hc := fcLoop_counts pr backend registry MAX_FUNCTION_CALL_ITERATIONS 0 1 resp0
        (history ++ [pr.build_content "user" userMessage]) [] [BEvent.success]
      dsimp only at h
      split at h
      · rename_i heq
        rw [heq] at hc
        simp only [LoopOut.iterationOf, LoopOut.callsOf] at hc
        cases h
        simp only [RunResult.genCalls, RunResult.iterations]
        omega
      · rename_i heq
        rw [heq] at hc
        simp only [LoopOut.iterationOf, LoopOut.callsOf] at hc
        split at h
        · cases h
          simp only [RunResult.genCalls, RunResult.iterations]
          omega
        · cases h
          simp only [RunResult.genCalls, RunResult.iterations]
          omega

/-- C1 witness: a single text answer gives 1 backend call, 0 iterations. -/
theorem c1_backend_call_and_iteration_bounds_witness :
    textRun.genCalls ≤ MAX_FUNCTION_CALL_ITERATIONS + 1 ∧
    textRun.iterations ≤ MAX_FUNCTION_CALL_ITERATIONS :=
  c1_backend_call_and_iteration_bounds (geminiPM (fun _ => "")) gemini_breaker 0
    (fun _ => Except.ok textResponse) [] [] "hi" textRun rfl

/-- C3: when the breaker denies the request at entry, `process_message`
makes zero backend calls and returns the fixed degradation message. -/
theorem c3_breaker_denied_zero_calls {R T P : Type} (pr : ProviderM R T P)
    (cb : CircuitBreaker) (now : ℚ) (backend : Nat → Except PyExn R)
    (registry : List (String × Handler)) (history : List T) (userMessage : String)
    (h : (cb.allow_request now).1 = false) :
    processMessage pr cb now backend registry history userMessage =
      Except.ok { finalText := degradationMessage, rawText := degradationMessage,
                  functionsCalled := [], genCalls := 0, iterations := 0,
                  contents := [], events := [] } := by
  simp [processMessage, h]

/-- C3 witness: an open breaker 10 seconds after the last failure (timeout
30) denies the request; the run returns the degradation message with no
backend calls even though the backend would answer. -/
theorem c3_breaker_denied_zero_calls_witness :
    processMessage (geminiPM (fun _ => "")) openBreaker 10
      (fun _ => Except.ok textResponse) [] [] "hi" =
      Except.ok { finalText := degradationMessage, rawText := degradationMessage,
                  functionsCalled := [], genCalls := 0, iterations := 0,
                  contents := [], events := [] } :=
  c3_breaker_denied_zero_calls (geminiPM (fun _ => "")) openBreaker 10
    (fun _ => Except.ok textResponse) [] [] "hi"
    (by norm_num [CircuitBreaker.allow_request, CircuitBreaker.state, openBreaker])

/-- C4 counterexample: with a backend whose `generate` raises immediately,
`process_message` returns `Except.ok` with the fixed apology text (the
enclosing `except Exception` handler converts the error) — the exception is
recorded as a breaker failure (`events = [failure]`) but is NOT re-raised
to the caller. -/
theorem c4_backend_error_not_reraised_cex :
    processMessage (geminiPM (fun _ => "")) gemini_breaker 0
      (fun _ => Except.error "RuntimeError") [] [] "hi" =
      Except.ok { finalText := apologyMessage, rawText := apologyMessage,
                  functionsCalled := [], genCalls := 1, iterations := 0,
                  contents := [GeminiProvider.build_content "user" "hi"],
                  events := [BEvent.failure] } := rfl

/-- C4 amended: every exception of a backend `generate` call — the initial
one or any in-loop one — is recorded as a breaker failure, but
`process_message` itself converts it into the fixed apology response (with
`functions_called` cleared); no exception ever propagates to the caller.
Conjunct (i): the result is always `Except.ok`.  Conjunct (ii): an initial
call error yields exactly the apology run with one recorded failure.
Conjunct (iii): whenever the gate allowed the run and the last attempted
backend call (index `genCalls - 1`, any call site) raised, the run
returned the apology with `functions_called` cleared and a breaker
failure as the last recorded event. -/
theorem c4_backend_errors_recorded_and_absorbed {R T P : Type} (pr : ProviderM R T P)
    (cb : CircuitBreaker) (now : ℚ) (backend : Nat → Except PyExn R)
    (registry : List (String × Handler)) (history : List T) (userMessage : String) :
    (∃ run, processMessage pr cb now backend registry history userMessage =
      Except.ok run) ∧
    (∀ e : PyExn, (cb.allow_request now).1 = true → backend 0 = Except.error e →
      processMessage pr cb now backend registry history userMessage =
        Except.ok { finalText := apologyMessage, rawText := apologyMessage,
                    functionsCalled := [], genCalls := 1, iterations := 0,
                    contents := history ++ [pr.build_content "user" userMessage],
                    events := [BEvent.failure] }) ∧
    (∀ (run : RunResult T) (e : PyExn), (cb.allow_request now).1 = true →
      processMessage pr cb now backend registry history userMessage = Except.ok run →
      backend (run.genCalls - 1) = Except.error e →
      run.finalText = apologyMessage ∧ run.rawText = apologyMessage ∧
      run.functionsCalled = [] ∧ run.events.getLast? = some BEvent.failure) := by
  refine ⟨?_, ?_, ?_⟩
  · unfold processMessage
    dsimp only
    repeat' split
    all_goals exact ⟨_, rfl⟩
  · intro e h1 h2
    simp [processMessage, h1, h2]
  · intro run e hgate hpm herr
    unfold processMessage at hpm
    split at hpm
    · rename_i hc
      rw [hgate] at hc
      cases hc
    · split at hpm
      · cases hpm
        exact ⟨rfl, rfl, rfl, rfl⟩
      · rename_i resp0 heq0
        have hprov := fcLoop_backend_provenance pr backend registry
          MAX_FUNCTION_CALL_ITERATIONS 0 1 resp0
          (history ++ [pr.build_content "user" userMessage]) [] [BEvent.success] heq0
        dsimp only at hpm
        split at hpm
        · rename_i e' i c cont f ev heq
          cases hpm
          dsimp only at herr
          rcases hprov.2 e' i c cont f ev heq with ⟨_, hlast⟩ | ⟨r', hok⟩
          · exact ⟨rfl, rfl, rfl, hlast⟩
          · rw [hok] at herr
            cases herr
        · rename_i r2 i c cont fns2 ev heq
          have hok := hprov.1 r2 i c cont fns2 ev heq
          split at hpm
          · cases hpm
            dsimp only at herr
            rw [hok] at herr
            cases herr
          · cases hpm
            dsimp only at herr
            rw [hok] at herr
            cases herr

/-- C4 amended witness: the backend raising at the first call, and a
backend raising at the first in-loop call (its run has two attempted
calls, ends with a recorded failure and returns the apology). -/
theorem c4_backend_errors_recorded_and_absorbed_witness :
    (processMessage (geminiPM (fun _ => "")) gemini_breaker 0
      (fun _ => Except.error "RuntimeError") [] [] "hello" =
      Except.ok { finalText := apologyMessage, rawText := apologyMessage,
                  functionsCalled := [], genCalls := 1, iterations := 0,
                  contents := [] ++ [(geminiPM (fun _ => "")).build_content "user" "hello"],
                  events := [BEvent.failure] }) ∧
    (loopErrorRun.finalText = apologyMessage ∧ loopErrorRun.rawText = apologyMessage ∧
      loopErrorRun.functionsCalled = [] ∧
      loopErrorRun.events.getLast? = some BEvent.failure) :=
  ⟨(c4_backend_errors_recorded_and_absorbed (geminiPM (fun _ => "")) gemini_breaker 0
      (fun _ => Except.error "RuntimeError") [] [] "hello").2.1 "RuntimeError" rfl rfl,
   (c4_backend_errors_recorded_and_absorbed (geminiPM (fun _ => "")) gemini_breaker 0
      errAtSecondBackend [] [] "hi").2.2 loopErrorRun "RuntimeError" rfl rfl rfl⟩

/-- The degradation message is non-empty (Python-truthy). -/
lemma degradationMessage_ne_empty : degradationMessage ≠ "" := by decide

/-- The apology message is non-empty (Python-truthy). -/
lemma apologyMessage_ne_empty : apologyMessage ≠ "" := by decide

/-- C9: (i) whenever a run ends with the iteration counter at the bound and
an empty extracted text, the returned text is the fixed "reached processing
limit" fallback; (ii) with a backend that always returns the same tool
call, exactly `MAX_FUNCTION_CALL_ITERATIONS` tool executions happen and
the run returns the fallback message. -/
theorem c9_limit_fallback_and_runaway :
    (∀ {R T P : Type} (pr : ProviderM R T P) (cb : CircuitBreaker) (now : ℚ)
      (backend : Nat → Except PyExn R) (registry : List (String × Handler))
      (history : List T) (userMessage : String) (run : RunResult T),
      processMessage pr cb now backend registry history userMessage = Except.ok run →
      run.rawText = "" → MAX_FUNCTION_CALL_ITERATIONS ≤ run.iterations →
      run.finalText = limitMessage) ∧
    (processMessage (geminiPM (fun _ => "")) gemini_breaker 0
        (fun _ => Except.ok runawayResponse) [] [] "hi").toOption.map
        (fun r => (r.functionsCalled, r.iterations, r.finalText)) =
      some (List.replicate MAX_FUNCTION_CALL_ITERATIONS "lookup",
        MAX_FUNCTION_CALL_ITERATIONS, limitMessage) := by
  constructor
  · intro R T P pr cb now backend registry history userMessage run h hraw hiter
    unfold processMessage at h
    split at h
    · cases h
      exact absurd hraw degradationMessage_ne_empty
    · split at h
      · cases h
        exact absurd hraw apologyMessage_ne_empty
      · dsimp only at h
        split at h
        · cases h
          exact absurd hraw apologyMessage_ne_empty
        · split at h
          · cases h
            exact absurd hraw apologyMessage_ne_empty
          · cases h
            exact if_pos ⟨hraw, hiter⟩
  · rfl

/-- C9 witness: the runaway run's final text is the fallback message. -/
theorem c9_limit_fallback_and_runaway_witness :
    runawayRun.finalText = limitMessage :=
  c9_limit_fallback_and_runaway.1 (geminiPM (fun _ => "")) gemini_breaker 0
    (fun _ => Except.ok runawayResponse) [] [] "hi" runawayRun rfl rfl
    (Nat.le_refl MAX_FUNCTION_CALL_ITERATIONS)

/-- A list of parts none of which is a FunctionResponse contributes no
tool-result names. -/
lemma flatMap_toolnames_nil (parts : List GPart)
    (h : ∀ p ∈ parts, p.function_response = none) :
    (parts.flatMap (fun p =>
      match p.function_response with
      | some fr => [fr.name]
      | none => [])) = [] := by
  induction parts with
  | nil => rfl
  | cons p ps ih =>
    have hp := h p (by simp)
    simp only [List.flatMap_cons, hp, List.nil_append]
    exact ih (fun q hq => h q (by simp [hq]))

/-- Generic loop invariant: if every successful `build_function_response`
contributes exactly one tool-result name — the called tool's name — and
every backend response is tool-result-free, then a completed loop extends
`functions_called` and the conversation's tool-result names by the same
suffix: one matching tool result per extracted call, appended before the
next backend call. -/
lemma fcLoop_done_tool_results {R T P : Type} (pr : ProviderM R T P)
    (backend : Nat → Except PyExn R) (registry : List (String × Handler))
    (f : T → List String) (good : R → Bool)
    (hb : ∀ n res r p items, good r = true →
      pr.build_function_response n res r p = Except.ok items →
      items.flatMap f = [n])
    (hback : ∀ k r, backend k = Except.ok r → good r = true) :
    ∀ (fuel iteration calls : Nat) (resp : R) (contents : List T)
      (fns : List String) (evs : List BEvent) (r2 : R) (i2 c2 : Nat)
      (cont2 : List T) (fns2 : List String) (evs2 : List BEvent),
      good resp = true →
      fcLoop pr backend registry fuel iteration calls resp contents fns evs =
        LoopOut.done r2 i2 c2 cont2 fns2 evs2 →
      ∃ suffix, fns2 = fns ++ suffix ∧
        cont2.flatMap f = contents.flatMap f ++ suffix := by
  intro fuel
  induction fuel with
  | zero =>
    intro iteration calls resp contents fns evs r2 i2 c2 cont2 fns2 evs2 hg hdone
    simp only [fcLoop] at hdone
    cases hdone
    exact ⟨[], by simp⟩
  | succ fuel ih =>
    intro iteration calls resp contents fns evs r2 i2 c2 cont2 fns2 evs2 hg hdone
    simp only [fcLoop] at hdone
    split at hdone
    · cases hdone
    · cases hdone
      exact ⟨[], by simp⟩
    · split at hdone
      · cases hdone
      · split at hdone
        · cases hdone
        · split at hdone
          · cases hdone
            exact ⟨[], by simp⟩
          · rename_i fc hfcopt
            split at hdone
            · cases hdone
            · rename_i items hbuild
              split at hdone
              · cases hdone
              · rename_i resp' hbk
                obtain ⟨suffix, hfns, hcont⟩ :=
                  ih (iteration + 1) (calls + 1) resp' (contents ++ items)
                    (fns ++ [fc.name]) (evs ++ [BEvent.success]) r2 i2 c2 cont2 fns2 evs2
                    (hback calls resp' hbk) hdone
                refine ⟨fc.name :: suffix, ?_, ?_⟩
                · rw [hfns]
                  simp
                · rw [hcont, List.flatMap_append,
                    hb fc.name (execute_function registry fc.name fc.args) resp _ items hg hbuild]
                  simp

/-- C6: (i) for the token-preserving (Gemini) adapter, any completed loop
run pairs each extracted tool call with exactly one tool-result turn of
the same name, appended to the conversation before the next backend call:
the tool-result names added to `contents` are exactly the sequence of
called names; (ii) for the history-replay (OpenAI) adapter,
`build_function_response` emits exactly one assistant turn replaying the
call and one tool-role turn, linked by the call id, and the replayed
call's name equals the extracted call's name. -/
theorem c6_tool_call_result_pairing :
    (∀ (jdumps : JObj → String) (backend : Nat → Except PyExn GResponse)
      (registry : List (String × Handler)),
      (∀ k r, backend k = Except.ok r → geminiModelTurn r = true) →
      ∀ (fuel iteration calls : Nat) (resp : GResponse) (contents : List GTurn)
        (fns : List String) (evs : List BEvent) (r2 : GResponse) (i2 c2 : Nat)
        (cont2 : List GTurn) (fns2 : List String) (evs2 : List BEvent),
        geminiModelTurn resp = true →
        fcLoop (geminiPM jdumps) backend registry fuel iteration calls resp
          contents fns evs = LoopOut.done r2 i2 c2 cont2 fns2 evs2 →
        ∃ suffix, fns2 = fns ++ suffix ∧
          cont2.flatMap gTurnToolResultNames =
            contents.flatMap gTurnToolResultNames ++ suffix) ∧
    (∀ (jdumps : JObj → String) (jloads : String → Option JObj) (resp : OResponse)
      (fc : FnCallInfo) (part : OToolCall) (result : JObj),
      OpenAIProvider.extract_function_call jloads resp = Except.ok (some fc) →
      OpenAIProvider.extract_function_call_part resp = Except.ok (some part) →
      part.function.name = fc.name ∧
      OpenAIProvider.build_function_response jdumps fc.name result resp (some part) =
        Except.ok
          [{ role := "assistant", content := none, tool_call_id := none,
             tool_calls := some [{ id := part.id,
                                   function := { name := fc.name,
                                                 arguments := part.function.arguments } }] },
           { role := "tool", content := some (jdumps result),
             tool_call_id := some part.id, tool_calls := none }]) := by
  constructor
  · intro jdumps backend registry hback
    intro fuel iteration calls resp contents fns evs r2 i2 c2 cont2 fns2 evs2 hg hdone
    refine fcLoop_done_tool_results (geminiPM jdumps) backend registry
      gTurnToolResultNames geminiModelTurn ?_ hback fuel iteration calls resp
      contents fns evs r2 i2 c2 cont2 fns2 evs2 hg hdone
    intro n res r p items hgood hbuild
    cases r with
    | mk cands =>
      cases cands with
      | nil =>
        simp [geminiPM, GeminiProvider.build_function_response] at hbuild
      | cons c rest =>
        have hcnil : gTurnToolResultNames c.content = [] := by
          simp only [geminiModelTurn, List.all_cons, Bool.and_eq_true] at hgood
          cases hcc : c.content with
          | none => rfl
          | some ct =>
            rw [hcc] at hgood
            simp only [gTurnToolResultNames]
            refine flatMap_toolnames_nil ct.parts (fun q hq => ?_)
            have := hgood.1
            rw [List.all_eq_true] at this
            exact Option.isNone_iff_eq_none.mp (this q hq)
        simp only [geminiPM, GeminiProvider.build_function_response] at hbuild
        split at hbuild <;>
          (cases hbuild
           simp only [List.flatMap_cons, List.flatMap_nil, List.append_nil]
           rw [hcnil]
           simp [gTurnToolResultNames])
  · intro jdumps jloads resp fc part result hfc hpart
    cases resp with
    | mk choices =>
      cases choices with
      | nil =>
        simp [OpenAIProvider.extract_function_call_part] at hpart
      | cons ch chs =>
        cases htc : ch.message.tool_calls with
        | none =>
          simp [OpenAIProvider.extract_function_call_part, htc] at hpart
        | some l =>
          cases l with
          | nil =>
            simp [OpenAIProvider.extract_function_call_part, htc] at hpart
          | cons tc rest =>
            have hpart' : part = tc := by
              simp [OpenAIProvider.extract_function_call_part, htc] at hpart
              exact hpart.symm
            have hname : fc.name = tc.function.name := by
              simp only [OpenAIProvider.extract_function_call, htc] at hfc
              split at hfc
              · cases hfc
                rfl
              · split at hfc
                · cases hfc
                · cases hfc
                  rfl
            subst hpart'
            refine ⟨hname.symm, ?_⟩
            simp [OpenAIProvider.build_function_response, hname]

/-- C6 witness: a Gemini loop that exits immediately on a text answer
(instantiating the loop invariant), and the OpenAI adapter on a concrete
tool-call response. -/
theorem c6_tool_call_result_pairing_witness :
    (∃ suffix, ([] : List String) = [] ++ suffix ∧
      (([] : List GTurn).flatMap gTurnToolResultNames) =
        (([] : List GTurn).flatMap gTurnToolResultNames) ++ suffix) ∧
    (tcLookup.function.name = ({ name := "lookup", args := [] } : FnCallInfo).name ∧
      OpenAIProvider.build_function_response (fun _ => "")
          ({ name := "lookup", args := [] } : FnCallInfo).name [] oaiToolResponse
          (some tcLookup) =
        Except.ok
          [{ role := "assistant", content := none, tool_call_id := none,
             tool_calls := some [{ id := tcLookup.id,
                                   function := { name := ({ name := "lookup", args := [] } :
                                                   FnCallInfo).name,
                                                 arguments := tcLookup.function.arguments } }] },
           { role := "tool", content := some ((fun (_ : JObj) => "") ([] : JObj)),
             tool_call_id := some tcLookup.id, tool_calls := none }]) :=
  ⟨c6_tool_call_result_pairing.1 (fun _ => "") (fun _ => Except.ok textResponse) []
      (fun k r h => by cases h; decide) MAX_FUNCTION_CALL_ITERATIONS 0 1 textResponse
      [] [] [] textResponse 0 1 [] [] [] (by decide) rfl,
   c6_tool_call_result_pairing.2 (fun _ => "") (fun _ => none) oaiToolResponse
      { name := "lookup", args := [] } tcLookup [] rfl rfl⟩

end ShopLens
